import Mathlib

/-!
Verification of the SimplyPrint OctoPrint plugin's websocket session layer
(`octoprint_simplyprint/websocket/simplyprint.py` and
`octoprint_simplyprint/websocket/file_handler.py`).

Python dictionaries with string keys are embedded as association lists
(`List (String × α)`), where lookup returns the first binding of a key.
The monotonic clock readings, timer intervals and reconnect delays that
the claims touch all take integral values in the code, so they are
embedded as `Int`; the two occurrences of Python's `int(v + .5)` rounding
are embedded through `pyIntPlusHalf` below.
-/

/-- Python `int(v + .5)` where `v` is the exactly representable
half-integer `n / 2`: `int()` truncates toward zero, so this is the
t-division of `n + 1` by `2`. -/
def pyIntPlusHalf (n : Int) : Int :=
  Int.tdiv (n + 1) 2

/-- First-binding lookup in an association list, i.e. `obj[key]` /
`key in obj` for a Python dict embedded as a list of key-value pairs. -/
def lookupKV (k : String) (obj : List (String × α)) : Option α :=
  (obj.find? (fun kv => kv.1 == k)).map (fun kv => kv.2)

/-- Python `obj[k] = v`: replace the value in place if the key exists,
otherwise append the new binding. -/
def dictSet (obj : List (String × α)) (k : String) (v : α) : List (String × α) :=
  if obj.any (fun kv => kv.1 == k) then
    obj.map (fun kv => if kv.1 == k then (k, v) else kv)
  else
    obj ++ [(k, v)]

/-- Python `obj.update(other)`: set every binding of `other` into `obj`. -/
def dictUpdate (obj other : List (String × α)) : List (String × α) :=
  other.foldl (fun acc kv => dictSet acc kv.1 kv.2) obj

/-! ### `SimplyPrintWebsocket._get_object_diff` and `_handle_cpu_update` -/

/-- `SimplyPrintWebsocket._get_object_diff`: if the cached object is empty
return the new object whole; otherwise keep exactly the items of the new
object whose key is absent from the cache or cached with a different value. -/
def getObjectDiff (newObj cachedObj : List (String × Int)) : List (String × Int) :=
  if cachedObj.isEmpty then newObj
  else newObj.filter (fun kv => !(lookupKV kv.1 cachedObj == some kv.2))

/-- The "cpu" message emitted by `SimplyPrintWebsocket._handle_cpu_update`
for a newly sampled `cpu_data` against the cached `cpu_info`: the diff is
sent when it is non-empty, nothing is sent otherwise. -/
def cpuUpdateMessage (cpuData cpuInfo : List (String × Int)) :
    Option (List (String × Int)) :=
  let diff := getObjectDiff cpuData cpuInfo
  if diff.isEmpty then none else some diff

/-- The cached `cpu_info` after `SimplyPrintWebsocket._handle_cpu_update`:
updated with the full `cpu_data` exactly when a message was emitted. -/
def cpuUpdateNewCache (cpuData cpuInfo : List (String × Int)) :
    List (String × Int) :=
  if (getObjectDiff cpuData cpuInfo).isEmpty then cpuInfo
  else dictUpdate cpuInfo cpuData

/-! ### `send_sp` and the pre-setup event gate -/

/-- `PRE_SETUP_EVENTS` from `websocket/simplyprint.py`. -/
def PRE_SETUP_EVENTS : List String :=
  ["connection", "state_change", "shutdown", "machine_data", "keepalive",
   "firmware"]

/-- `SimplyPrintWebsocket._check_setup_event`. -/
def checkSetupEvent (isSetUp : Bool) (evtName : String) : Bool :=
  isSetUp || PRE_SETUP_EVENTS.contains evtName

/-- Result of `SimplyPrintWebsocket.send_sp`: either a future already
resolved with `False` (nothing was written to the socket) or a pending
task wrapping the write of the packet `{"type": evtName, "data": data}`. -/
inductive SendResult (α : Type) where
  | resolvedFalse
  | pendingTask (evtName : String) (data : α)
deriving DecidableEq

/-- `SimplyPrintWebsocket.send_sp`.  `connected` is the handshake-complete
flag, `wsSome`/`protoSome` embed `ws is not None` / `ws.protocol is not
None`, and `writeRaises` embeds `write_message` raising
`WebSocketClosedError` (in which case a future resolved with `False` is
returned instead of propagating the exception). -/
def sendSp (connected wsSome protoSome isSetUp : Bool) (evtName : String)
    (data : α) (writeRaises : Bool) : SendResult α :=
  if !connected || !wsSome || !protoSome || !(checkSetupEvent isSetUp evtName) then
    .resolvedFalse
  else if writeRaises then .resolvedFalse
  else .pendingTask evtName data

/-! ### Session state, `_connect` and `_process_message` -/

/-- The session fields of `SimplyPrintWebsocket` that the connection
lifecycle reads and writes. -/
structure Session where
  connected : Bool
  isSetUp : Bool
  reconnectDelay : Int
  reconnectToken : Option String
  lastPingReceived : Int
  wsOpen : Bool
deriving DecidableEq

/-- The session as built by `SimplyPrintWebsocket.__init__`:
disconnected, `reconnect_delay = 1.`, no reconnect token. -/
def initialSession (isSetUp : Bool) : Session :=
  { connected := false
    isSetUp := isSetUp
    reconnectDelay := 1
    reconnectToken := none
    lastPingReceived := 0
    wsOpen := false }

/-- The successful-open branch of `SimplyPrintWebsocket._connect`: the
socket is stored and the ping-received timestamp registered; no other
session field is touched. -/
def socketOpenSuccess (time : Int) (s : Session) : Session :=
  { s with wsOpen := true, lastPingReceived := time }

/-- The `data` of a `connected` packet, as read by `_process_message`:
`data.get("in_setup", 0) == 1` and `data.get("reconnect_token")`. -/
structure ConnectedData where
  inSetup : Bool
  reconnectToken : Option String
deriving DecidableEq

/-- An inbound packet, dispatched on its `type` by
`SimplyPrintWebsocket._process_message`. -/
inductive InboundMsg where
  | connectedAck (data : Option ConnectedData)
  | errorMsg
  | newToken (noExist : Bool)
  | completeSetup
  | demandMsg
  | intervalChange
  | unknown
deriving DecidableEq

/-- The effect of `SimplyPrintWebsocket._process_message` on the session
fields.  `connected` acknowledgement: mark connected, replace the
reconnect token with the one supplied (if any), clear `is_set_up` when the
remote reports the device in setup, and reset `reconnect_delay` to 1.
`error` packet: set `reconnect_delay` to 30 and clear the reconnect token.
`new_token` with `no_exist`: clear `is_set_up`.  `complete_setup`: set
`is_set_up`.  Demands, interval changes and unknown packets leave the
session fields alone. -/
def processMessage (msg : InboundMsg) (s : Session) : Session :=
  match msg with
  | .connectedAck data =>
    let s1 := { s with connected := true, reconnectToken := none }
    let s2 :=
      match data with
      | none => s1
      | some d =>
        let s1a := if d.inSetup then { s1 with isSetUp := false } else s1
        { s1a with reconnectToken := d.reconnectToken }
    { s2 with reconnectDelay := 1 }
  | .errorMsg => { s with reconnectDelay := 30, reconnectToken := none }
  | .newToken noExist =>
    if noExist && s.isSetUp then { s with isSetUp := false } else s
  | .completeSetup => { s with isSetUp := true }
  | .demandMsg => s
  | .intervalChange => s
  | .unknown => s

/-- The URL used by `_connect`: the reconnect token is appended to the
base URL exactly when one is held. -/
def connectUrl (base : String) (token : Option String) : String :=
  match token with
  | some t => base ++ "/" ++ t
  | none => base

/-! ### `AmbientDetect` -/

/-- `AMBIENT_CHECK_TIME = 5. * 60.` -/
def AMBIENT_CHECK_TIME : Int := 5 * 60

/-- `TARGET_CHECK_TIME = 60. * 60.` -/
def TARGET_CHECK_TIME : Int := 60 * 60

/-- `SAMPLE_CHECK_TIME = 20.` -/
def SAMPLE_CHECK_TIME : Int := 20

/-- `AmbientDetect.CHECK_INTERVAL = 5` -/
def AMBIENT_CHECK_INTERVAL : Int := 5

/-- The mutable state of `AmbientDetect`.  The cached tool0 temperatures
are integers (`ReportCache.temps` stores rounded values), so `ambient` and
`_initial_sample` are integers; `-1000` is the "no sample" sentinel. -/
structure AmbState where
  ambient : Int
  initialSample : Int
  lastSampleTime : Int
  updateInterval : Int
deriving DecidableEq

/-- Outcome of one run of `AmbientDetect._handle_detect_timer`: the new
detector state, the values passed to the change callback (in order), and
the returned next wake time. -/
structure AmbResult where
  state : AmbState
  callbacks : List Int
  nextTime : Int
deriving DecidableEq

/-- `AmbientDetect._handle_detect_timer`.  `tool0` is
`cache.temps["tool0"]` (`none` when the key is absent): the rounded
`[actual, target]` pair.  The new ambient estimate in the converging
branch is Python's `int((temp + initial_sample) / 2 + .5)`. -/
def handleDetectTimer (tool0 : Option (Int × Int)) (eventtime : Int)
    (st : AmbState) : AmbResult :=
  match tool0 with
  | none =>
    ⟨{ st with initialSample := -1000 }, [], eventtime + AMBIENT_CHECK_INTERVAL⟩
  | some (temp, target) =>
    if target ≠ 0 then
      ⟨{ st with initialSample := -1000, lastSampleTime := eventtime,
                 updateInterval := TARGET_CHECK_TIME }, [],
       eventtime + AMBIENT_CHECK_INTERVAL⟩
    else if eventtime - st.lastSampleTime < st.updateInterval then
      ⟨st, [], eventtime + AMBIENT_CHECK_INTERVAL⟩
    else if st.initialSample = -1000 then
      ⟨{ st with initialSample := temp, updateInterval := SAMPLE_CHECK_TIME },
       [], eventtime + AMBIENT_CHECK_INTERVAL⟩
    else if (temp - st.initialSample).natAbs ≤ 2 then
      let newAmbient := pyIntPlusHalf (temp + st.initialSample)
      ⟨{ ambient := newAmbient, initialSample := -1000,
         lastSampleTime := eventtime, updateInterval := AMBIENT_CHECK_TIME },
       if st.ambient ≠ newAmbient then [newAmbient] else [],
       eventtime + AMBIENT_CHECK_INTERVAL⟩
    else
      ⟨{ st with initialSample := temp, updateInterval := SAMPLE_CHECK_TIME },
       [], eventtime + AMBIENT_CHECK_INTERVAL⟩

/-! ### Missed job events: `_send_job_event` and `_push_initial_state` -/

/-- A value in a job-info payload. -/
inductive SpVal where
  | int (i : Int)
  | str (s : String)
  | bool (b : Bool)
deriving DecidableEq

/-- An entry of `missed_job_events`: the merged payload and the value of
its `"delay"` key, which holds the queueing timestamp until the flush
rewrites it. -/
structure MissedEvent where
  data : List (String × SpVal)
  delay : Int
deriving DecidableEq

/-- `SimplyPrintWebsocket._send_job_event`: when connected the payload is
sent as a `job_info` message at once; otherwise the cached job info is
merged over it, the current monotonic time is recorded under `"delay"`,
the entry is appended to `missed_job_events`, and the oldest entry is
dropped when the buffer exceeds 10. -/
def sendJobEvent (connected : Bool) (cacheJobInfo jobInfo : List (String × SpVal))
    (now : Int) (buffer : List MissedEvent) :
    Option (List (String × SpVal)) × List MissedEvent :=
  if connected then (some jobInfo, buffer)
  else
    let entry : MissedEvent := ⟨dictUpdate jobInfo cacheJobInfo, now⟩
    let buf := buffer ++ [entry]
    (none, if buf.length > 10 then buf.tail else buf)

/-- The flushed form of one missed event: its `"delay"` key is replaced by
`int((curtime - delay) + .5)` (the elapsed time is `(2 * elapsed) / 2`,
so `pyIntPlusHalf` receives twice the elapsed time) and the payload is
sent as a `job_info` message. -/
def flushEvent (curtime : Int) (evt : MissedEvent) : List (String × SpVal) :=
  dictSet evt.data "delay" (SpVal.int (pyIntPlusHalf (2 * (curtime - evt.delay))))

/-- The missed-event loop of `SimplyPrintWebsocket._push_initial_state`:
each buffered event is flushed in order as a `job_info` message. -/
def flushMissedLoop (curtime : Int) : List MissedEvent →
    List (String × List (String × SpVal))
  | [] => []
  | evt :: rest => ("job_info", flushEvent curtime evt) :: flushMissedLoop curtime rest

/-- `_push_initial_state`'s treatment of `missed_job_events`: the emitted
`job_info` messages and the buffer afterwards (it is reassigned to `[]`). -/
def pushInitialStateJobFlush (curtime : Int) (buffer : List MissedEvent) :
    List (String × List (String × SpVal)) × List MissedEvent :=
  (flushMissedLoop curtime buffer, [])

/-! ### `_update_state` -/

/-- Outcome of `SimplyPrintWebsocket._update_state`: the new
`cache.state`, the `state_change` message (its `"new"` value) if one was
sent, and whether the cancelled-print completion path
(`_on_print_done("cancelled", ...)`) ran. -/
structure UpdateStateOut where
  newCache : String
  message : Option String
  cancelledEvent : Bool
deriving DecidableEq

/-- `SimplyPrintWebsocket._update_state`: a no-op when the cached state
already equals the requested one; otherwise the cached state is replaced
and a `state_change` message announcing it is sent (after finishing a
cancelled print when the previous state was `cancelling`). -/
def updateState (cacheState newState : String) : UpdateStateOut :=
  if cacheState = newState then ⟨cacheState, none, false⟩
  else ⟨newState, some newState, cacheState = "cancelling"⟩

/-- Repeated calls of `_update_state`, collecting the `state_change`
messages in the order they are sent. -/
def runUpdates (cacheState : String) : List String → String × List String
  | [] => (cacheState, [])
  | s :: rest =>
    let out := updateState cacheState s
    let next := runUpdates out.newCache rest
    (next.1, out.message.toList ++ next.2)

/-! ### `SimplyPrintFileHandler`: staging loop and `start_print` -/

/-- Split a character list at its first `'.'`, returning the parts before
and after it, or `none` when no dot occurs. -/
def splitFirstDot : List Char → Option (List Char × List Char)
  | [] => none
  | c :: rest =>
    if c = '.' then some ([], rest)
    else
      match splitFirstDot rest with
      | some (pre, post) => some (c :: pre, post)
      | none => none

/-- Python `filename.split(".", 1)` recast as (stem, extension-with-
default): the extension falls back to `"gcode"` when the name has no dot,
mirroring `fparts = filename.split(".", 1); ext = "gcode" if len(fparts) <
2 else fparts[-1]`. -/
def splitExt (filename : String) : String × String :=
  match splitFirstDot filename.data with
  | none => (filename, "gcode")
  | some (pre, post) => (⟨pre⟩, ⟨post⟩)

/-- The retry rename in `SimplyPrintFileHandler._download_sp_file`:
`filename = f"{fparts[0]}_copy{count}.{ext}"` applied to the current
candidate name. -/
def renameCopy (filename : String) (count : Nat) : String :=
  (splitExt filename).1 ++ "_copy" ++ toString count ++ "." ++ (splitExt filename).2

/-- Outcome of the staging loop of `_download_sp_file`: the file is added
under an accepted name, or a `file_progress` error event is sent and the
transfer aborted. -/
inductive StageResult where
  | added (filename : String)
  | errorEvent
deriving DecidableEq

/-- The staging loop body: `while count < 100`, try the current candidate
(`accept` embeds the canonicalize/sanitize pipeline plus
`printer.can_modify_file` on the resulting storage path); on rejection
increment the counter and retry under the renamed candidate.  The fuel
argument equals `100 - count`. -/
def stageLoopAux (accept : String → Bool) : Nat → String → Nat → StageResult
  | 0, _, _ => .errorEvent
  | fuel + 1, filename, count =>
    if accept filename then .added filename
    else stageLoopAux accept fuel (renameCopy filename (count + 1)) (count + 1)

/-- The staging phase of `_download_sp_file`, starting from the resolved
download filename with `count = 0`. -/
def stageFile (accept : String → Bool) (filename : String) : StageResult :=
  stageLoopAux accept 100 filename 0

/-- The successive candidate names the staging loop generates from a
starting name and counter, one per unit of fuel. -/
def candList (filename : String) (count : Nat) : Nat → List String
  | 0 => []
  | fuel + 1 => filename :: candList (renameCopy filename (count + 1)) (count + 1) fuel

/-- Candidate naming as the specification words it: the original name,
then the original stem suffixed with `_copy1`, `_copy2`, and so on.
Modelled from the spec for comparison with the source's `renameCopy`
iteration. -/
def claimedCandidate (filename : String) (k : Nat) : String :=
  if k = 0 then filename
  else (splitExt filename).1 ++ "_copy" ++ toString k ++ "." ++ (splitExt filename).2

/-- Outcome of `SimplyPrintFileHandler.start_print`: the returned boolean,
whether `printer.start_print()` was invoked, the `file_progress` error
message sent (if any), and the value of `pending_file` afterwards. -/
structure StartPrintOut where
  result : Bool
  invokedStart : Bool
  errorEvent : Option String
  pendingAfter : String
deriving DecidableEq

/-- `SimplyPrintFileHandler.start_print`.  `hasLoop` embeds
`hasattr(self, "_loop")`; `isCurrentFile` embeds
`printer.is_current_file(pending, False)`; `startConfirmed` embeds the
bounded wait `start_event.wait(10.)` returning whether the "started"
confirmation signal arrived within 10 seconds. -/
def startPrint (hasLoop : Bool) (pendingFile : String)
    (isCurrentFile : String → Bool) (startConfirmed : Bool) : StartPrintOut :=
  if !hasLoop then ⟨false, false, none, pendingFile⟩
  else if pendingFile = "" then ⟨false, false, none, pendingFile⟩
  else if !(isCurrentFile pendingFile) then
    ⟨false, false, some "File not selected", ""⟩
  else if startConfirmed then ⟨true, true, none, ""⟩
  else ⟨false, true, some "Error starting print", ""⟩

/-! ## Theorems -/

/-- C1: with the session connected (socket and protocol live) but
`is_set_up` false, `send_sp` writes nothing for any event name outside
`PRE_SETUP_EVENTS`; once setup completes (`is_set_up` true) no event name
is suppressed by the setup gate. -/
theorem send_sp_pre_setup_gate (evt : String) (data : α) (writeRaises : Bool) :
    (evt ∉ PRE_SETUP_EVENTS →
      sendSp true true true false evt data writeRaises = SendResult.resolvedFalse)
    ∧ sendSp true true true true evt data false = SendResult.pendingTask evt data := by
  constructor
  · intro h
    simp [sendSp, checkSetupEvent, h]
  · simp [sendSp, checkSetupEvent]

/-- C1 witness at the event name `job_info`. -/
theorem send_sp_pre_setup_gate_witness :
    sendSp true true true false "job_info" (0 : Int) false = SendResult.resolvedFalse
    ∧ sendSp true true true true "job_info" (0 : Int) false =
        SendResult.pendingTask "job_info" 0 :=
  ⟨(send_sp_pre_setup_gate "job_info" 0 false).1 (by decide),
   (send_sp_pre_setup_gate "job_info" 0 false).2⟩

/-- C6: calling `send_sp` while disconnected, without a live socket or
protocol, or for an event type suppressed by the setup gate writes
nothing, raises nothing, and returns a future already resolved with
`False`. -/
theorem send_sp_not_sent_contract (c w p s : Bool) (evt : String) (data : α)
    (writeRaises : Bool)
    (h : c = false ∨ w = false ∨ p = false ∨ checkSetupEvent s evt = false) :
    sendSp c w p s evt data writeRaises = SendResult.resolvedFalse := by
  rcases h with h | h | h | h <;> simp [sendSp, h]

/-- C6 witness: a disconnected session. -/
theorem send_sp_not_sent_contract_witness :
    sendSp false true true true "keepalive" (0 : Int) false = SendResult.resolvedFalse :=
  send_sp_not_sent_contract false true true true "keepalive" 0 false (Or.inl rfl)

/-- C2 counterexample: after the remote reports an error (reconnect delay
escalated to 30), a successful socket open leaves `reconnect_delay` at 30,
not at its minimum of 1, before any message has been processed. -/
theorem socket_open_delay_counterexample :
    (socketOpenSuccess 100 (processMessage InboundMsg.errorMsg
        (initialSession true))).reconnectDelay ≠ 1 := by
  decide

/-- C2 amended: a successful socket open registers the ping timestamp but
leaves `reconnect_delay` unchanged; the delay is reset to its minimum of 1
second only when the remote's `connected` acknowledgement is processed. -/
theorem reconnect_delay_reset_on_connected_ack (s : Session) (t : Int)
    (d : Option ConnectedData) :
    (socketOpenSuccess t s).reconnectDelay = s.reconnectDelay
    ∧ (socketOpenSuccess t s).lastPingReceived = t
    ∧ (processMessage (InboundMsg.connectedAck d) s).reconnectDelay = 1 :=
  ⟨rfl, rfl, rfl⟩

/-- C7: processing an `error` packet, in every session state, escalates
`reconnect_delay` to 30 seconds and clears the reconnect token, so the
next connection attempt uses the bare URL without a token suffix. -/
theorem error_packet_escalates_backoff (s : Session) (base : String) :
    (processMessage InboundMsg.errorMsg s).reconnectDelay = 30
    ∧ (processMessage InboundMsg.errorMsg s).reconnectToken = none
    ∧ connectUrl base (processMessage InboundMsg.errorMsg s).reconnectToken = base :=
  ⟨rfl, rfl, rfl⟩

/-- Items of `_get_object_diff`'s result are exactly the items of the new
object whose key is not cached with an equal value. -/
theorem mem_getObjectDiff (newObj cachedObj : List (String × Int))
    (kv : String × Int) :
    kv ∈ getObjectDiff newObj cachedObj ↔
      kv ∈ newObj ∧ lookupKV kv.1 cachedObj ≠ some kv.2 := by
  unfold getObjectDiff
  cases cachedObj with
  | nil => simp [lookupKV]
  | cons a l =>
    rw [if_neg (by simp)]
    rw [List.mem_filter]
    simp

/-- C3: for a newly sampled `cpu_data`, no `cpu` message is emitted
exactly when every key of `cpu_data` is cached in `cpu_info` with an equal
value; an emitted payload holds exactly the items of `cpu_data` whose
values differ from the cache or are absent from it. -/
theorem cpu_update_diff_suppression (cpuData cpuInfo : List (String × Int)) :
    (cpuUpdateMessage cpuData cpuInfo = none ↔
      ∀ kv ∈ cpuData, lookupKV kv.1 cpuInfo = some kv.2)
    ∧ ∀ payload, cpuUpdateMessage cpuData cpuInfo = some payload →
        ∀ kv : String × Int,
          kv ∈ payload ↔ kv ∈ cpuData ∧ lookupKV kv.1 cpuInfo ≠ some kv.2 := by
  have hnone : cpuUpdateMessage cpuData cpuInfo = none ↔
      getObjectDiff cpuData cpuInfo = [] := by
    unfold cpuUpdateMessage
    by_cases h : (getObjectDiff cpuData cpuInfo).isEmpty
    · simp [h, List.isEmpty_iff.mp h]
    · simp [h]
      exact fun hc => h (by simp [hc])
  constructor
  · rw [hnone, List.eq_nil_iff_forall_not_mem]
    constructor
    · intro h kv hkv
      by_contra hne
      exact h kv ((mem_getObjectDiff cpuData cpuInfo kv).mpr ⟨hkv, hne⟩)
    · intro h kv hkv
      obtain ⟨h1, h2⟩ := (mem_getObjectDiff cpuData cpuInfo kv).mp hkv
      exact h2 (h kv h1)
  · intro payload hp kv
    unfold cpuUpdateMessage at hp
    by_cases h : (getObjectDiff cpuData cpuInfo).isEmpty
    · simp [h] at hp
    · simp [h] at hp
      rw [← hp]
      exact mem_getObjectDiff cpuData cpuInfo kv

/-- C3 witness: an unchanged sample emits nothing; a changed `temp` field
emits exactly that field. -/
theorem cpu_update_diff_suppression_witness :
    cpuUpdateMessage [("usage", 5), ("temp", 40)] [("usage", 5), ("temp", 40)] = none
    ∧ (("temp", (41 : Int)) ∈ [("usage", (5 : Int)), ("temp", 41)]
        ∧ lookupKV "temp" [("usage", (5 : Int)), ("temp", 40)] ≠ some 41) :=
  ⟨(cpu_update_diff_suppression _ _).1.mpr (by decide),
   ((cpu_update_diff_suppression [("usage", 5), ("temp", 41)]
      [("usage", 5), ("temp", 40)]).2 [("temp", 41)] (by decide)
        ("temp", 41)).mp (by decide)⟩

/-- C4: with tool0 present at target 0, the sampling interval elapsed and
an initial sample held, a second reading within 2 degrees sets the ambient
to `int((temp + initial) / 2 + .5)`, fires the change callback exactly
once with that value when it changed (not at all otherwise), and reverts
the update interval to 5 minutes; a reading more than 2 degrees away
leaves the ambient untouched, fires no callback, restarts sampling from
the new reading and keeps the 20-second interval. -/
theorem ambient_detect_second_sample (st : AmbState) (temp eventtime : Int)
    (hsample : st.initialSample ≠ -1000)
    (helapsed : st.updateInterval ≤ eventtime - st.lastSampleTime) :
    ((temp - st.initialSample).natAbs ≤ 2 →
      handleDetectTimer (some (temp, 0)) eventtime st =
        ⟨⟨pyIntPlusHalf (temp + st.initialSample), -1000, eventtime,
          AMBIENT_CHECK_TIME⟩,
         if st.ambient ≠ pyIntPlusHalf (temp + st.initialSample)
         then [pyIntPlusHalf (temp + st.initialSample)] else [],
         eventtime + AMBIENT_CHECK_INTERVAL⟩)
    ∧ (2 < (temp - st.initialSample).natAbs →
      handleDetectTimer (some (temp, 0)) eventtime st =
        ⟨⟨st.ambient, temp, st.lastSampleTime, SAMPLE_CHECK_TIME⟩, [],
         eventtime + AMBIENT_CHECK_INTERVAL⟩) := by
  have h0 : ¬((0 : Int) ≠ 0) := by simp
  constructor
  · intro h
    simp only [handleDetectTimer]
    rw [if_neg h0, if_neg (not_lt.mpr helapsed), if_neg hsample, if_pos h]
  · intro h
    simp only [handleDetectTimer]
    rw [if_neg h0, if_neg (not_lt.mpr helapsed), if_neg hsample,
      if_neg (not_le.mpr h)]

/-- C4 witness: readings 21 then 23 average to ambient 22 (one callback,
since the previous ambient was 20) and the interval reverts to 300 s;
readings 21 then 24 leave the ambient at 20, fire nothing, and restart
sampling at 24 with a 20 s interval. -/
theorem ambient_detect_second_sample_witness :
    handleDetectTimer (some (23, 0)) 30 ⟨20, 21, 0, 20⟩ =
      ⟨⟨22, -1000, 30, 300⟩, [22], 35⟩
    ∧ handleDetectTimer (some (24, 0)) 30 ⟨20, 21, 0, 20⟩ =
      ⟨⟨20, 24, 0, 20⟩, [], 35⟩ := by
  have h1 := (ambient_detect_second_sample ⟨20, 21, 0, 20⟩ 23 30
    (by decide) (by decide)).1 (by decide)
  have h2 := (ambient_detect_second_sample ⟨20, 21, 0, 20⟩ 24 30
    (by decide) (by decide)).2 (by decide)
  refine ⟨?_, ?_⟩
  · rw [h1]; decide
  · rw [h2]; decide

/-- The flush loop visits the buffer in order, one `job_info` message per
buffered event. -/
theorem flushMissedLoop_eq_map (curtime : Int) (buffer : List MissedEvent) :
    flushMissedLoop curtime buffer =
      buffer.map (fun evt => ("job_info", flushEvent curtime evt)) := by
  induction buffer with
  | nil => rfl
  | cons e rest ih => simp [flushMissedLoop, ih]

/-- C5: a job event arriving while disconnected sends nothing and is
appended to the missed-events buffer, which keeps at most 10 entries by
evicting the oldest; the initial-state push flushes the buffered events in
arrival order as `job_info` messages, each with its `delay` rewritten to
the rounded elapsed seconds since queuing, and leaves the buffer empty. -/
theorem missed_job_event_buffering (buffer : List MissedEvent)
    (cacheJobInfo jobInfo : List (String × SpVal)) (now curtime : Int)
    (hlen : buffer.length ≤ 10) :
    (sendJobEvent false cacheJobInfo jobInfo now buffer).1 = none
    ∧ (sendJobEvent false cacheJobInfo jobInfo now buffer).2 =
        (if buffer.length = 10
         then buffer.tail ++ [⟨dictUpdate jobInfo cacheJobInfo, now⟩]
         else buffer ++ [⟨dictUpdate jobInfo cacheJobInfo, now⟩])
    ∧ (sendJobEvent false cacheJobInfo jobInfo now buffer).2.length ≤ 10
    ∧ pushInitialStateJobFlush curtime buffer =
        (buffer.map (fun evt => ("job_info", flushEvent curtime evt)), []) := by
  have hbuf : (sendJobEvent false cacheJobInfo jobInfo now buffer).2 =
      (if buffer.length = 10
       then buffer.tail ++ [⟨dictUpdate jobInfo cacheJobInfo, now⟩]
       else buffer ++ [⟨dictUpdate jobInfo cacheJobInfo, now⟩]) := by
    simp only [sendJobEvent, Bool.false_eq_true, if_false]
    by_cases h : buffer.length = 10
    · rw [if_pos h, if_pos (by simp [h])]
      cases buffer with
      | nil => simp at h
      | cons a l => simp
    · rw [if_neg h, if_neg (by simp; omega)]
  refine ⟨rfl, hbuf, ?_, ?_⟩
  · rw [hbuf]
    by_cases h : buffer.length = 10
    · rw [if_pos h]
      cases buffer with
      | nil => simp at h
      | cons a l =>
        simp only [List.length_cons] at h
        simp only [List.tail_cons, List.length_append, List.length_cons,
          List.length_nil]
        omega
    · rw [if_neg h]
      simp only [List.length_append, List.length_cons, List.length_nil]
      omega
  · rw [pushInitialStateJobFlush, flushMissedLoop_eq_map]

/-- C5 witness: one event queued at time 5 into an empty buffer while
disconnected sends nothing. -/
theorem missed_job_event_buffering_witness :
    (sendJobEvent false [] [("started", SpVal.bool true)] 5 []).1 = none :=
  (missed_job_event_buffering [] [] [("started", SpVal.bool true)] 5 9
    (by decide)).1

/-- Each unit of fuel generates one candidate name. -/
theorem candList_length : ∀ (fuel : Nat) (filename : String) (count : Nat),
    (candList filename count fuel).length = fuel := by
  intro fuel
  induction fuel with
  | zero => intro filename count; rfl
  | succ f ih =>
    intro filename count
    simp [candList, ih]

/-- The staging loop returns the first accepted candidate of its fuel-many
generated names, and an error when all are rejected. -/
theorem stageLoopAux_eq_find (accept : String → Bool) :
    ∀ (fuel : Nat) (filename : String) (count : Nat),
    stageLoopAux accept fuel filename count =
      (match (candList filename count fuel).find? accept with
       | some c => StageResult.added c
       | none => StageResult.errorEvent) := by
  intro fuel
  induction fuel with
  | zero => intro filename count; rfl
  | succ f ih =>
    intro filename count
    by_cases h : accept filename
    · simp [stageLoopAux, candList, List.find?_cons_of_pos _ h, h]
    · simp [stageLoopAux, candList, List.find?_cons_of_neg _ h, h, ih]

/-- C8 counterexample: with only the names `test_copy2.gcode` and
`test_copy1_copy2.gcode` acceptable, the claim's candidate list (the
original, then `_copy1`, `_copy2`, ... suffixes of the original stem)
predicts the file is added as `test_copy2.gcode` on the third attempt; the
code instead renames cumulatively and adds `test_copy1_copy2.gcode`. -/
theorem stage_retry_names_counterexample :
    stageFile (fun s => s == "test_copy2.gcode" || s == "test_copy1_copy2.gcode")
        "test.gcode" = StageResult.added "test_copy1_copy2.gcode"
    ∧ claimedCandidate "test.gcode" 2 = "test_copy2.gcode"
    ∧ candList "test.gcode" 0 3 =
        ["test.gcode", "test_copy1.gcode", "test_copy1_copy2.gcode"]
    ∧ "test_copy1_copy2.gcode" ≠ "test_copy2.gcode" := by
  decide

/-- C8 amended: the staging loop tries at most 100 candidate names, where
each retry appends `_copy{attempt}` to the stem of the *previous*
candidate (cumulatively); the file is added under the first accepted
candidate, and if all 100 are rejected a `file_progress` error event is
sent and the transfer aborted without adding the file. -/
theorem stage_retry_first_accepted (accept : String → Bool) (filename : String) :
    stageFile accept filename =
      (match (candList filename 0 100).find? accept with
       | some c => StageResult.added c
       | none => StageResult.errorEvent)
    ∧ (candList filename 0 100).length = 100 :=
  ⟨stageLoopAux_eq_find accept 100 filename 0, candList_length 100 filename 0⟩

/-- C9: `start_print` returns `False` without touching the printer when no
file is pending; when the pending file is no longer the selected file it
clears it, sends a `File not selected` error event and returns `False`
without starting; otherwise it issues the start-print command and returns
`True` exactly when the started confirmation arrives within the 10-second
bound, sending an `Error starting print` event and returning `False`
otherwise. -/
theorem start_print_contract (pendingFile : String)
    (isCurrentFile : String → Bool) (startConfirmed : Bool) :
    (pendingFile = "" →
      startPrint true pendingFile isCurrentFile startConfirmed =
        ⟨false, false, none, pendingFile⟩)
    ∧ (pendingFile ≠ "" → isCurrentFile pendingFile = false →
      startPrint true pendingFile isCurrentFile startConfirmed =
        ⟨false, false, some "File not selected", ""⟩)
    ∧ (pendingFile ≠ "" → isCurrentFile pendingFile = true →
      startPrint true pendingFile isCurrentFile startConfirmed =
        ⟨startConfirmed, true,
         if startConfirmed then none else some "Error starting print", ""⟩) := by
  refine ⟨?_, ?_, ?_⟩
  · intro h
    simp [startPrint, h]
  · intro h hc
    simp [startPrint, h, hc]
  · intro h hc
    by_cases hs : startConfirmed <;> simp [startPrint, h, hc, hs]

/-- C9 witness: a pending file that is still selected starts successfully;
one that is no longer selected reports `File not selected`. -/
theorem start_print_contract_witness :
    startPrint true "f.gcode" (fun _ => true) true = ⟨true, true, none, ""⟩
    ∧ startPrint true "f.gcode" (fun _ => false) true =
        ⟨false, false, some "File not selected", ""⟩ := by
  constructor
  · have h := (start_print_contract "f.gcode" (fun _ => true) true).2.2
      (by decide) rfl
    rw [h]; decide
  · exact (start_print_contract "f.gcode" (fun _ => false) true).2.1
      (by decide) rfl

/-- The `state_change` messages of a run of `_update_state` calls: each
sent message differs from the cache state it replaced, so adjacent
messages differ, and the first differs from the starting cache state. -/
theorem runUpdates_chain (reqs : List String) : ∀ cacheState : String,
    List.Chain' (fun a b => a ≠ b) (runUpdates cacheState reqs).2
    ∧ ∀ m, (runUpdates cacheState reqs).2.head? = some m → m ≠ cacheState := by
  induction reqs with
  | nil =>
    intro c
    exact ⟨List.chain'_nil, fun m h => by simp [runUpdates] at h⟩
  | cons s rest ih =>
    intro c
    by_cases h : c = s
    · have hrw : runUpdates c (s :: rest) = runUpdates c rest := by
        simp [runUpdates, updateState, h]
      rw [hrw]
      exact ih c
    · have hrw : (runUpdates c (s :: rest)).2 = s :: (runUpdates s rest).2 := by
        simp [runUpdates, updateState, h]
      rw [hrw]
      constructor
      · rw [List.chain'_cons']
        exact ⟨fun b hb => Ne.symm ((ih s).2 b hb), (ih s).1⟩
      · intro m hm
        simp at hm
        rw [← hm]
        exact fun hc => h hc.symm

/-- C10: `_update_state` is idempotent and deduplicating — a call with the
cached state is a no-op, every call leaves the cache at the requested
state, and over any run of calls no two consecutive `state_change`
messages announce the same state; `start_print` clears the pending file on
every call, so a second consecutive call returns `False` with no error
event. -/
theorem update_state_dedup_and_pending_clear (s c : String)
    (reqs : List String) (pendingFile : String)
    (icf icf2 : String → Bool) (sc sc2 : Bool) :
    updateState s s = ⟨s, none, false⟩
    ∧ (updateState c s).newCache = s
    ∧ List.Chain' (fun a b => a ≠ b) (runUpdates c reqs).2
    ∧ (startPrint true pendingFile icf sc).pendingAfter = ""
    ∧ startPrint true (startPrint true pendingFile icf sc).pendingAfter icf2 sc2 =
        ⟨false, false, none, ""⟩ := by
  have hpend : (startPrint true pendingFile icf sc).pendingAfter = "" := by
    by_cases h : pendingFile = ""
    · simp [startPrint, h]
    · by_cases hc : icf pendingFile
      · by_cases hs : sc <;> simp [startPrint, h, hc, hs]
      · simp [startPrint, h, hc]
  refine ⟨by simp [updateState], ?_, (runUpdates_chain reqs c).1, hpend, ?_⟩
  · by_cases h : c = s <;> simp [updateState, h]
  · rw [hpend]
    simp [startPrint]
